import Mathlib

/-
Shallow embedding of the environment-readiness core of `src/ui_main.py`
(Open-AutoGLM Phone Agent GUI).  Python strings are modelled as `List Char`;
`os.environ` as a function from keys to optional values; external process
calls and filesystem facts are explicit parameters (an external call that
raises is a distinguished outcome).  Each definition mirrors one function
of the source file, named after it.
-/

abbrev Str := List Char

/-- Character data of a Lean string literal, used to write Python string
literals from the source. -/
def chars (s : String) : Str := s.data

/-- The double-quote character (ASCII 34). -/
def dquote : Char := Char.ofNat 34

/-- The single-quote character (ASCII 39). -/
def squote : Char := Char.ofNat 39

/-- Whitespace as recognized by the Python method `str.strip()` (ASCII subset). -/
def isWS (c : Char) : Bool :=
  c == ' ' || c == '\t' || c == '\n' || c == '\r' ||
  c == Char.ofNat 11 || c == Char.ofNat 12

/-- Left part of Python `str.strip()`. -/
def trimLeftList (l : Str) : Str := l.dropWhile isWS

/-- Right part of Python `str.strip()`. -/
def trimRightList (l : Str) : Str := (l.reverse.dropWhile isWS).reverse

/-- Python `str.strip()`: drop whitespace at both ends. -/
def trimList (l : Str) : Str := trimRightList (trimLeftList l)

/-- Python `str.strip(c)` for a single character `c`: drop every leading and
trailing occurrence of `c`. -/
def stripCharList (c : Char) (l : Str) : Str :=
  ((l.dropWhile (fun a => a == c)).reverse.dropWhile (fun a => a == c)).reverse

/-- The quote-stripping step of `load_env_file` (`src/ui_main.py` line 59):
strip double quotes, then single quotes, from both ends of the value. -/
def quoteStrip (l : Str) : Str := stripCharList squote (stripCharList dquote l)

/-- Python `str.startswith(p)`. -/
def isPrefixList : Str → Str → Bool
  | [], _ => true
  | _ :: _, [] => false
  | a :: as, b :: bs => a == b && isPrefixList as bs

/-- Python substring test `p in s`. -/
def containsList (p : Str) : Str → Bool
  | [] => isPrefixList p []
  | c :: rest => isPrefixList p (c :: rest) || containsList p rest

/-- Number of (possibly overlapping) positions at which `p` occurs in `s`. -/
def countOcc (p : Str) : Str → Nat
  | [] => if isPrefixList p [] then 1 else 0
  | c :: rest => (if isPrefixList p (c :: rest) then 1 else 0) + countOcc p rest

/-- ASCII lowering of one character, as Python `str.lower()` does on ASCII. -/
def lowerChar (c : Char) : Char :=
  if 'A' ≤ c && c ≤ 'Z' then Char.ofNat (c.toNat + 32) else c

/-- Python `str.lower()` (ASCII fragment actually exercised by the source). -/
def lowerList (l : Str) : Str := l.map lowerChar

/-- Python `line.startswith("#")`. -/
def startsWithHash (l : Str) : Bool :=
  match l with
  | [] => false
  | c :: _ => c == '#'

/-- Python `line.split(sep, 1)` on a one-character separator: `none` when the
separator does not occur (the `"=" in line` test), otherwise the parts
before and after its first occurrence. -/
def breakOnChar (c : Char) : Str → Option (Str × Str)
  | [] => none
  | a :: rest =>
    if a == c then some ([], rest)
    else
      match breakOnChar c rest with
      | none => none
      | some pr => some (a :: pr.1, pr.2)

/-- The process environment `os.environ`, keys to optional values. -/
abbrev EnvMap := Str → Option Str

/-- `os.environ[k] = v`. -/
def setEnv (env : EnvMap) (k v : Str) : EnvMap :=
  fun k2 => if k2 = k then some v else env k2

/-- An environment with no keys set. -/
def emptyEnv : EnvMap := fun _ => none

/-- One iteration of the loop of `load_env_file` (`src/ui_main.py`
lines 54-61): strip the raw line; skip blank lines, `#` comments and lines
without `=`; split at the first `=`; strip the key, strip and unquote the
value; set the environment entry only when both key and value are
non-empty. -/
def parseEnvLine (env : EnvMap) (raw : Str) : EnvMap :=
  let line := trimList raw
  if line = [] then env
  else if startsWithHash line = true then env
  else
    match breakOnChar '=' line with
    | none => env
    | some kv =>
      let key := trimList kv.1
      let value := quoteStrip (trimList kv.2)
      if key = [] then env
      else if value = [] then env
      else setEnv env key value

/-- `load_env_file` (`src/ui_main.py` lines 44-66) applied to the lines of
the `.env` store, folded over a starting environment. -/
def loadEnvFile (lines : List Str) (env : EnvMap) : EnvMap :=
  lines.foldl parseEnvLine env

/-- The five status flags of `PhoneAgentGUI` (`src/ui_main.py`
lines 236-240), one per readiness probe. -/
structure StatusFlags where
  adb_installed : Bool
  adb_in_path : Bool
  device_connected : Bool
  adb_keyboard_installed : Bool
  api_configured : Bool
deriving DecidableEq, Repr

/-- The readiness aggregate of `_update_overall_status` (`src/ui_main.py`
line 608): the condition under which the overall label reports ready and
the start button is enabled. -/
def allReady (f : StatusFlags) : Bool :=
  f.adb_installed && f.device_connected && f.adb_keyboard_installed &&
    f.api_configured

/-- The missing-items summary built by `_update_overall_status`
(`src/ui_main.py` lines 613-621). -/
def missingItems (f : StatusFlags) : List Str :=
  (if f.adb_installed then [] else [chars "ADB"]) ++
  (if f.device_connected then [] else [chars "设备"]) ++
  (if f.adb_keyboard_installed then [] else [chars "键盘"]) ++
  (if f.api_configured then [] else [chars "API"])

/-- `_check_api_config` (`src/ui_main.py` lines 585-603): the credential
probe reports configured iff the stripped `MODELSCOPE_API_KEY` environment
value is non-empty, not `"EMPTY"`, and not
`"your_modelscope_api_key_here"`. -/
def checkApiConfig (env : EnvMap) : Bool :=
  let api_key := trimList ((env (chars "MODELSCOPE_API_KEY")).getD [])
  if api_key = [] then false
  else if api_key = chars "EMPTY" then false
  else if api_key = chars "your_modelscope_api_key_here" then false
  else true

/-- Outcome of one `subprocess.run` call: either the call raised
(spawn failure or timeout), or it returned captured stdout and stderr. -/
inductive ProcOutcome
  | raised
  | output (stdout stderr : Str)
deriving DecidableEq, Repr

/-- The external effects a corrective action can perform: external process
invocations and file writes, abstracted by call site. -/
inductive Effect
  | extractArchive
  | readUserPath
  | writeUserPath
  | adbInstallApk
  | imeEnable
  | imeSet
  | adbConnect
  | writeEnvFile
deriving DecidableEq, Repr

/-- Result of a corrective action: whether an error was logged, the external
effects performed (in order), and whether a full re-probe
(`_check_all_status`) was scheduled. -/
structure ActionOut where
  errorLogged : Bool
  effects : List Effect
  reprobe : Bool
deriving DecidableEq, Repr

/-- `_install_adb` (`src/ui_main.py` lines 629-651).  `packageExists` is
`self.adb_package_path.exists()`, `extractRaises` the outcome of the
`zipfile` extraction, `adbExeAfter` whether `platform-tools/adb.exe`
exists after extraction. -/
def installAdb (packageExists extractRaises adbExeAfter : Bool) : ActionOut :=
  if packageExists = false then ⟨true, [], false⟩
  else if extractRaises = true then ⟨true, [Effect.extractArchive], false⟩
  else if adbExeAfter = true then ⟨false, [Effect.extractArchive], true⟩
  else ⟨true, [Effect.extractArchive], false⟩

/-- `_install_adb_keyboard` (`src/ui_main.py` lines 778-815).  `apkExists`
is `self.adb_keyboard_path.exists()`, `adbLocated` whether
`_get_adb_path()` found the tool, `installProc` the outcome of
`adb install -r`.  The two `ime` calls run only after a `"Success"`
substring in the combined install output. -/
def installAdbKeyboard (apkExists adbLocated : Bool)
    (installProc : ProcOutcome) : ActionOut :=
  if apkExists = false then ⟨true, [], false⟩
  else if adbLocated = false then ⟨true, [], false⟩
  else
    match installProc with
    | ProcOutcome.raised => ⟨true, [Effect.adbInstallApk], false⟩
    | ProcOutcome.output out err =>
      if containsList (chars "Success") (out ++ err) = true then
        ⟨false, [Effect.adbInstallApk, Effect.imeEnable, Effect.imeSet], true⟩
      else ⟨true, [Effect.adbInstallApk], false⟩

/-- Result of `_connect_wifi_device`: error flag, the raw combined output
surfaced on failure, external effects, and whether `_check_all_status`
was called. -/
structure ConnectOut where
  errorLogged : Bool
  raw : Option Str
  effects : List Effect
  reprobe : Bool
deriving DecidableEq, Repr

/-- `_connect_wifi_device` (`src/ui_main.py` lines 754-776).  Success is a
case-insensitive `"connected"` substring of stdout+stderr; both the
success and the failure branch fall through to `_check_all_status()`
(line 772); only a raised call skips it. -/
def connectWifiDevice (adbLocated : Bool) (proc : ProcOutcome) : ConnectOut :=
  if adbLocated = false then ⟨true, none, [], false⟩
  else
    match proc with
    | ProcOutcome.raised => ⟨true, none, [Effect.adbConnect], false⟩
    | ProcOutcome.output out err =>
      let output := out ++ err
      if containsList (chars "connected") (lowerList output) = true then
        ⟨false, none, [Effect.adbConnect], true⟩
      else ⟨true, some output, [Effect.adbConnect], true⟩

/-- The persistent user-scope PATH and the in-process `os.environ["PATH"]`. -/
structure PathState where
  userPath : Str
  envPath : Str
deriving DecidableEq, Repr

/-- Result of `_configure_path`: final path state plus action bookkeeping. -/
structure CPOut where
  state : PathState
  effects : List Effect
  reprobe : Bool
  errorLogged : Bool
deriving DecidableEq, Repr

/-- `_configure_path` (`src/ui_main.py` lines 653-688).  Precondition: the
install directory exists.  It reads the persistent user PATH (stripped
stdout), returns early when the install directory already occurs in it as
a substring, otherwise writes back the path extended with `;adb_dir` and
also appends `;adb_dir` to the in-process `PATH`.  Both branches schedule
`_check_all_status`; a raised external call logs the error and changes
nothing. -/
def configurePath (adbDir : Str) (dirExists procRaises : Bool)
    (s : PathState) : CPOut :=
  if dirExists = false then ⟨s, [], false, true⟩
  else if procRaises = true then ⟨s, [Effect.readUserPath], false, true⟩
  else
    let current := trimList s.userPath
    if containsList adbDir current = true then
      ⟨s, [Effect.readUserPath], true, false⟩
    else
      let newPath :=
        if current = [] then adbDir else current ++ chars ";" ++ adbDir
      ⟨⟨newPath, s.envPath ++ chars ";" ++ adbDir⟩,
        [Effect.readUserPath, Effect.writeUserPath], true, false⟩

/-- The replacement loop of `_configure_api.save` (`src/ui_main.py`
lines 894-899): replace the first line starting with
`MODELSCOPE_API_KEY=`, or report that none was found. -/
def replaceFirst (apiKey : Str) : List Str → Option (List Str)
  | [] => none
  | l :: ls =>
    if isPrefixList (chars "MODELSCOPE_API_KEY=") l = true then
      some ((chars "MODELSCOPE_API_KEY=" ++ apiKey) :: ls)
    else
      match replaceFirst apiKey ls with
      | none => none
      | some ls2 => some (l :: ls2)

/-- The merge step of `_configure_api.save` (`src/ui_main.py`
lines 893-907): update the key line in place (append if absent), then
append the base-URL and model-name defaults if no line starts with their
keys. -/
def mergeSave (apiKey : Str) (lines : List Str) : List Str :=
  let lines1 :=
    match replaceFirst apiKey lines with
    | some ls => ls
    | none => lines ++ [chars "MODELSCOPE_API_KEY=" ++ apiKey]
  let lines2 :=
    if lines1.any (fun l => isPrefixList (chars "PHONE_AGENT_BASE_URL=") l)
        = true then lines1
    else lines1 ++ [chars "PHONE_AGENT_BASE_URL=https://api-inference.modelscope.cn/v1"]
  if lines2.any (fun l => isPrefixList (chars "PHONE_AGENT_MODEL=") l)
      = true then lines2
  else lines2 ++ [chars "PHONE_AGENT_MODEL=ZhipuAI/AutoGLM-Phone-9B"]

/-- Result of `_configure_api.save`: final environment, final store lines,
whether the store was written, whether an error dialog was shown, and
whether `_check_all_status` was scheduled. -/
structure SaveOut where
  env : EnvMap
  file : List Str
  wroteFile : Bool
  errorShown : Bool
  reprobe : Bool

/-- `_configure_api.save` (`src/ui_main.py` lines 878-927).  A blank
(stripped) key is rejected before any file access.  Inside the `try`,
the store is read (when it exists), merged, and written; only after a
successful write is `os.environ["MODELSCOPE_API_KEY"]` set.  A raised
read or write lands in the `except` branch: error reported, environment
untouched. -/
def saveConfig (apiKeyRaw : Str) (env : EnvMap) (fileExists : Bool)
    (file : List Str) (readRaises writeRaises : Bool) : SaveOut :=
  let api_key := trimList apiKeyRaw
  if api_key = [] then ⟨env, file, false, true, false⟩
  else if fileExists = true && readRaises = true then
    ⟨env, file, false, true, false⟩
  else
    let lines := if fileExists = true then file else []
    let merged := mergeSave api_key lines
    if writeRaises = true then ⟨env, file, false, true, false⟩
    else
      ⟨setEnv env (chars "MODELSCOPE_API_KEY") api_key, merged,
        true, false, true⟩

/-- The dispatcher-visible GUI state: the `running` flag, the enabled state
of the start and stop buttons, the number of run threads dispatched so
far, and the latest probe flags. -/
structure GuiState where
  running : Bool
  startEnabled : Bool
  stopEnabled : Bool
  dispatched : Nat
  flags : StatusFlags
deriving DecidableEq, Repr

/-- `_update_overall_status` (`src/ui_main.py` lines 605-627) as a state
transition: the start button is set from the four aggregated flags alone,
with no regard to the run state. -/
def updateOverallStatus (s : GuiState) : GuiState :=
  { s with startEnabled := allReady s.flags }

/-- The opening of `_start_task.run` (`src/ui_main.py` lines 940-943):
dispatch one run thread, mark running, disable start, enable stop. -/
def beginRun (s : GuiState) : GuiState :=
  { s with running := true, startEnabled := false, stopEnabled := true,
           dispatched := s.dispatched + 1 }

/-- A start request: a click on the start button.  A disabled Tk button
does not fire its command; an enabled one runs `_start_task`
(`src/ui_main.py` lines 933-994), which rejects only a blank task text
and otherwise dispatches a run thread unconditionally — it consults
neither `self.running` nor the readiness aggregate. -/
def clickStart (task : Str) (s : GuiState) : GuiState :=
  if s.startEnabled = false then s
  else if trimList task = [] then s
  else beginRun s

/-- The end of a run thread (`finally`, `src/ui_main.py` lines 987-992):
back to idle, start enabled, stop disabled — regardless of readiness. -/
def finishRun (s : GuiState) : GuiState :=
  { s with running := false, startEnabled := true, stopEnabled := false }

/-- Outcome of the single `self.agent.run(task)` call. -/
inductive AgentOutcome
  | ret (v : Str)
  | err (e : Str)
deriving DecidableEq, Repr

/-- The failure points of `_start_task.run` before and at the agent call:
whether the `phone_agent` imports succeed, the result of
`int(os.environ.get("PHONE_AGENT_MAX_STEPS", "100"))` (`none` when `int`
raises), whether the `PhoneAgent` constructor succeeds, and the outcome
of `agent.run`. -/
structure RunInput where
  importOk : Bool
  maxSteps : Option Int
  ctorOk : Bool
  outcome : AgentOutcome
deriving DecidableEq, Repr

/-- Observable result of one run thread: how often the agent capability was
invoked, the final `running` flag and agent reference, whether the
redirected streams were restored, whether an error was logged, and
whether an exception escaped the thread body. -/
structure RunOut where
  invocations : Nat
  running : Bool
  agent : Option Unit
  streamsRestored : Bool
  errorLogged : Bool
  propagated : Bool
deriving DecidableEq, Repr

/-- `_start_task.run` (`src/ui_main.py` lines 940-994): the `try` body
builds the configs, constructs the agent and calls `agent.run` once; any
exception is caught and logged; the `finally` block always restores the
streams, clears `running` and drops the agent reference. -/
def runTask (inp : RunInput) : RunOut :=
  if inp.importOk = false then ⟨0, false, none, true, true, false⟩
  else
    match inp.maxSteps with
    | none => ⟨0, false, none, true, true, false⟩
    | some _ =>
      if inp.ctorOk = false then ⟨0, false, none, true, true, false⟩
      else
        match inp.outcome with
        | AgentOutcome.ret _ => ⟨1, false, none, true, false, false⟩
        | AgentOutcome.err _ => ⟨1, false, none, true, true, false⟩

/-
Helper lemmas shared by the claim theorems.
-/

/-- A list is a prefix of itself followed by anything. -/
theorem isPrefixList_append (p r : Str) : isPrefixList p (p ++ r) = true := by
  induction p with
  | nil => rfl
  | cons a as ih => simp [isPrefixList, ih]

/-- Differing head characters refute the prefix test. -/
theorem isPrefixList_head_ne (a b : Char) (as bs : Str) (h : (a == b) = false) :
    isPrefixList (a :: as) (b :: bs) = false := by
  simp [isPrefixList, h]

/-- `dropWhile` over an append stops no later than a failing head of the
second part. -/
theorem dropWhile_append_cons (p : Char → Bool) (l₁ : Str) (c : Char)
    (l₂ : Str) (hc : p c = false) :
    List.dropWhile p (l₁ ++ c :: l₂) = List.dropWhile p l₁ ++ c :: l₂ := by
  induction l₁ with
  | nil => simp [List.dropWhile, hc]
  | cons a as ih =>
    by_cases hpa : p a = true
    · simp [List.dropWhile_cons, hpa, ih]
    · simp only [Bool.not_eq_true] at hpa
      simp [List.dropWhile_cons, hpa]

/-- Splitting at the first occurrence of `c` past a hit-free prefix. -/
theorem breakOnChar_no_hit (c : Char) (l₁ l₂ : Str)
    (h : l₁.all (fun a => !(a == c)) = true) :
    breakOnChar c (l₁ ++ c :: l₂) = some (l₁, l₂) := by
  induction l₁ with
  | nil => simp [breakOnChar]
  | cons a as ih =>
    simp only [List.all_cons, Bool.and_eq_true, Bool.not_eq_true'] at h
    simp [breakOnChar, h.1, ih h.2]

/-- Replacing the first credential line when no earlier line matches. -/
theorem replaceFirst_append (k old : Str) (pre post : List Str)
    (hpre : pre.all
      (fun l => !(isPrefixList (chars "MODELSCOPE_API_KEY=") l)) = true) :
    replaceFirst k (pre ++ (chars "MODELSCOPE_API_KEY=" ++ old) :: post)
      = some (pre ++ (chars "MODELSCOPE_API_KEY=" ++ k) :: post) := by
  induction pre with
  | nil => simp [replaceFirst, isPrefixList_append]
  | cons a as ih =>
    simp only [List.all_cons, Bool.and_eq_true, Bool.not_eq_true'] at hpre
    simp [replaceFirst, hpre.1, ih hpre.2]

/-- `trimLeft` does not touch a line starting with the credential key. -/
theorem trimLeft_api (v : Str) :
    trimLeftList (chars "MODELSCOPE_API_KEY=" ++ v)
      = chars "MODELSCOPE_API_KEY=" ++ v := by
  rw [show chars "MODELSCOPE_API_KEY=" ++ v
        = 'M' :: (chars "ODELSCOPE_API_KEY=" ++ v) from rfl]
  have h : isWS 'M' = false := by decide
  simp [trimLeftList, List.dropWhile_cons, h]

/-- `trimRight` of a credential line only strips the tail of the value. -/
theorem trimRight_api (v : Str) :
    trimRightList (chars "MODELSCOPE_API_KEY=" ++ v)
      = chars "MODELSCOPE_API_KEY=" ++ trimRightList v := by
  unfold trimRightList
  rw [List.reverse_append,
    show (chars "MODELSCOPE_API_KEY=").reverse
      = '=' :: chars "YEK_IPA_EPOCSLEDOM" from rfl,
    dropWhile_append_cons isWS v.reverse '=' (chars "YEK_IPA_EPOCSLEDOM")
      (by decide),
    List.reverse_append,
    show ('=' :: chars "YEK_IPA_EPOCSLEDOM").reverse
      = chars "MODELSCOPE_API_KEY=" from rfl]

/-- Stripping a credential line with a right-stripped value is a no-op. -/
theorem trimList_api (v : Str) (hv : trimRightList v = v) :
    trimList (chars "MODELSCOPE_API_KEY=" ++ v)
      = chars "MODELSCOPE_API_KEY=" ++ v := by
  unfold trimList
  rw [trimLeft_api, trimRight_api, hv]

/-- Splitting a credential line at its first `=`. -/
theorem breakOnChar_api (v : Str) :
    breakOnChar '=' (chars "MODELSCOPE_API_KEY=" ++ v)
      = some (chars "MODELSCOPE_API_KEY", v) := by
  rw [show chars "MODELSCOPE_API_KEY=" ++ v
        = chars "MODELSCOPE_API_KEY" ++ '=' :: v from rfl]
  exact breakOnChar_no_hit '=' _ v (by decide)

/-- `load_env_file` on a credential line: the entry is overwritten exactly
when the stripped, unquoted value is non-empty; otherwise the line is
skipped. -/
theorem parseEnvLine_api (env : EnvMap) (v : Str) (hv : trimRightList v = v) :
    parseEnvLine env (chars "MODELSCOPE_API_KEY=" ++ v)
      = if quoteStrip (trimList v) = [] then env
        else setEnv env (chars "MODELSCOPE_API_KEY") (quoteStrip (trimList v)) := by
  have hne : (chars "MODELSCOPE_API_KEY=" ++ v = ([] : Str)) = False := by
    rw [show chars "MODELSCOPE_API_KEY=" ++ v
          = 'M' :: (chars "ODELSCOPE_API_KEY=" ++ v) from rfl]
    simp
  have hhash : startsWithHash (chars "MODELSCOPE_API_KEY=" ++ v) = false := by
    rw [show chars "MODELSCOPE_API_KEY=" ++ v
          = 'M' :: (chars "ODELSCOPE_API_KEY=" ++ v) from rfl]
    simp [startsWithHash]
  have hkey : trimList (chars "MODELSCOPE_API_KEY") = chars "MODELSCOPE_API_KEY" := by
    decide
  have hknz : ¬ (chars "MODELSCOPE_API_KEY" = ([] : Str)) := by decide
  simp only [parseEnvLine, trimList_api v hv, hne, if_false, hhash,
    breakOnChar_api, hkey]
  simp [hknz]

/-
Claim theorems.
-/

/-- C1 (counterexample): with TOOL_ON_PATH (`adb_in_path`) the only probe
not OK, `_update_overall_status` still reports overall ready and an empty
missing-items summary — refuting the claim that `all_ready` is false and
TOOL_ON_PATH is listed. -/
theorem C1_cex :
    allReady ⟨true, false, true, true, true⟩ = true
    ∧ missingItems ⟨true, false, true, true, true⟩ = [] := by decide

/-- C1 (amended): `all_ready` is the conjunction of the four probes
TOOL_INSTALLED, DEVICE_CONNECTED, HELPER_INSTALLED and
CREDENTIAL_CONFIGURED; each of those four, when not OK, is listed in the
missing-items summary; TOOL_ON_PATH is consulted by neither the aggregate
nor the summary. -/
theorem C1_amended (f : StatusFlags) :
    (allReady f = true ↔
      f.adb_installed = true ∧ f.device_connected = true ∧
      f.adb_keyboard_installed = true ∧ f.api_configured = true)
    ∧ (allReady f = true → missingItems f = [])
    ∧ (f.adb_installed = false → chars "ADB" ∈ missingItems f)
    ∧ (f.device_connected = false → chars "设备" ∈ missingItems f)
    ∧ (f.adb_keyboard_installed = false → chars "键盘" ∈ missingItems f)
    ∧ (f.api_configured = false → chars "API" ∈ missingItems f)
    ∧ allReady { f with adb_in_path := true }
        = allReady { f with adb_in_path := false } := by
  obtain ⟨a, b, c, d, e⟩ := f
  cases a <;> cases b <;> cases c <;> cases d <;> cases e <;> decide

/-- C1 (witness): the amended theorem at two concrete flag states. -/
theorem C1_witness :
    allReady ⟨true, true, true, true, true⟩ = true
    ∧ chars "API" ∈ missingItems ⟨true, true, true, true, false⟩ :=
  ⟨(C1_amended ⟨true, true, true, true, true⟩).1.mpr ⟨rfl, rfl, rfl, rfl⟩,
   (C1_amended ⟨true, true, true, true, false⟩).2.2.2.2.2.1 rfl⟩

/-- C2 (counterexample): loading a store whose credential value is
`"your_api_key_here"` makes `_check_api_config` report OK — the only
placeholder the code recognizes is `"your_modelscope_api_key_here"`, so
the scenario named by the claim fails. -/
theorem C2_cex :
    checkApiConfig
      (loadEnvFile [chars "MODELSCOPE_API_KEY=your_api_key_here"] emptyEnv)
      = true := by decide

/-- C2 (amended): the credential probe reports OK only if the stripped
stored value is non-blank, not the sentinel `"EMPTY"`, and not the known
placeholder `"your_modelscope_api_key_here"`; loading that placeholder
yields not-OK.  The string `"your_api_key_here"` is not recognized. -/
theorem C2_amended (env : EnvMap) (h : checkApiConfig env = true) :
    trimList ((env (chars "MODELSCOPE_API_KEY")).getD []) ≠ []
    ∧ trimList ((env (chars "MODELSCOPE_API_KEY")).getD []) ≠ chars "EMPTY"
    ∧ trimList ((env (chars "MODELSCOPE_API_KEY")).getD [])
        ≠ chars "your_modelscope_api_key_here"
    ∧ checkApiConfig
        (loadEnvFile [chars "MODELSCOPE_API_KEY=your_modelscope_api_key_here"]
          emptyEnv) = false := by
  refine ⟨?_, ?_, ?_, by decide⟩ <;>
    · intro hc
      rw [checkApiConfig] at h
      simp only [hc] at h
      simp at h

/-- C2 (witness): the amended theorem at a concrete configured
environment. -/
theorem C2_witness :
    trimList (((setEnv emptyEnv (chars "MODELSCOPE_API_KEY") (chars "k"))
      (chars "MODELSCOPE_API_KEY")).getD []) ≠ [] :=
  (C2_amended (setEnv emptyEnv (chars "MODELSCOPE_API_KEY") (chars "k"))
    (by decide)).1

/-- C3 (counterexample): a run is in flight (`running = true`); a status
update reporting the four aggregated probes OK re-enables the start
button; a further start request is then accepted and dispatches a second
run — refuting the claim that start while RUNNING is always rejected
with no second invocation. -/
theorem C3_cex :
    (updateOverallStatus (clickStart (chars "t")
      (GuiState.mk false true false 0 ⟨true, true, true, true, true⟩))).running
      = true
    ∧ (clickStart (chars "t") (updateOverallStatus (clickStart (chars "t")
        (GuiState.mk false true false 0
          ⟨true, true, true, true, true⟩)))).dispatched = 2 := by decide

/-- C3 (amended): start requests are gated solely by the enabled state of
the start button (and a non-blank task text): a click on a disabled button
changes nothing, `_update_overall_status` sets the button from the four
aggregated flags alone — regardless of the run state — and a click on an
enabled button with a non-blank task dispatches a run unconditionally,
checking neither `running` nor readiness. -/
theorem C3_amended (s : GuiState) (t : Str) :
    (s.startEnabled = false → clickStart t s = s)
    ∧ (updateOverallStatus s).startEnabled = allReady s.flags
    ∧ (updateOverallStatus s).running = s.running
    ∧ (updateOverallStatus s).dispatched = s.dispatched
    ∧ (s.startEnabled = true → ¬ trimList t = [] →
        (clickStart t s).dispatched = s.dispatched + 1
        ∧ (clickStart t s).running = true) := by
  refine ⟨fun h => by simp [clickStart, h],
    by simp [updateOverallStatus],
    by simp [updateOverallStatus],
    by simp [updateOverallStatus],
    fun h ht => ?_⟩
  simp [clickStart, h, ht, beginRun]

/-- C3 (witness): a disabled-button click is a no-op; an enabled-button
click dispatches even with every probe flag false. -/
theorem C3_witness :
    clickStart (chars "t")
      (GuiState.mk false false false 0 ⟨true, true, true, true, true⟩)
      = GuiState.mk false false false 0 ⟨true, true, true, true, true⟩
    ∧ (clickStart (chars "t")
        (GuiState.mk false true false 3
          ⟨false, false, false, false, false⟩)).dispatched = 4 :=
  ⟨(C3_amended (GuiState.mk false false false 0 ⟨true, true, true, true, true⟩)
      (chars "t")).1 rfl,
   ((C3_amended (GuiState.mk false true false 3
      ⟨false, false, false, false, false⟩) (chars "t")).2.2.2.2 rfl
      (by decide)).1⟩

/-- C4 (counterexample): on combined output `"unable to connect"` the
action logs failure with the raw output — but it does call
`_check_all_status` (a full re-probe), refuting the claim that no
re-probe is triggered. -/
theorem C4_cex :
    connectWifiDevice true (ProcOutcome.output (chars "unable to connect") [])
      = ⟨true, some (chars "unable to connect"), [Effect.adbConnect], true⟩ := by
  decide

/-- C4 (amended): whenever the combined output of the connect call lacks
the substring `"connected"` case-insensitively, the action reports a
failure with the raw output surfaced, and still schedules a full
re-probe, so DEVICE_CONNECTED is re-derived by its probe rather than
kept from before the action. -/
theorem C4_amended (out err : Str)
    (h : containsList (chars "connected") (lowerList (out ++ err)) = false) :
    connectWifiDevice true (ProcOutcome.output out err)
      = ⟨true, some (out ++ err), [Effect.adbConnect], true⟩ := by
  simp [connectWifiDevice, h]

/-- C4 (witness): the amended theorem at a concrete failure output. -/
theorem C4_witness :
    connectWifiDevice true (ProcOutcome.output (chars "refused") [])
      = ⟨true, some (chars "refused" ++ []), [Effect.adbConnect], true⟩ :=
  C4_amended (chars "refused") [] (by decide)

/-- C5 (counterexample): a store with the credential line and two other
unrelated keys grows from three lines to five on save (the base-URL and
model-name defaults are appended), refuting the unchanged-line-count
claim. -/
theorem C5_cex :
    (mergeSave (chars "new")
      [chars "MODELSCOPE_API_KEY=old", chars "FOO=1", chars "BAR=2"]).length
      = 5 := by decide

/-- C5 (amended): saving replaces the first credential line in place,
leaving every other line unchanged; the line count is unchanged when
base-URL and model-name lines are already present (otherwise the missing
defaults are appended at the end). -/
theorem C5_amended (pre post : List Str) (old k : Str)
    (hpre : pre.all
      (fun l => !(isPrefixList (chars "MODELSCOPE_API_KEY=") l)) = true)
    (hbase : (pre ++ post).any
      (fun l => isPrefixList (chars "PHONE_AGENT_BASE_URL=") l) = true)
    (hmodel : (pre ++ post).any
      (fun l => isPrefixList (chars "PHONE_AGENT_MODEL=") l) = true) :
    mergeSave k (pre ++ (chars "MODELSCOPE_API_KEY=" ++ old) :: post)
      = pre ++ (chars "MODELSCOPE_API_KEY=" ++ k) :: post
    ∧ (mergeSave k (pre ++ (chars "MODELSCOPE_API_KEY=" ++ old) :: post)).length
      = (pre ++ (chars "MODELSCOPE_API_KEY=" ++ old) :: post).length := by
  have hrep := replaceFirst_append k old pre post hpre
  have hb2 : (pre ++ (chars "MODELSCOPE_API_KEY=" ++ k) :: post).any
      (fun l => isPrefixList (chars "PHONE_AGENT_BASE_URL=") l) = true := by
    simp only [List.any_append, List.any_cons, Bool.or_eq_true] at hbase ⊢
    tauto
  have hm2 : (pre ++ (chars "MODELSCOPE_API_KEY=" ++ k) :: post).any
      (fun l => isPrefixList (chars "PHONE_AGENT_MODEL=") l) = true := by
    simp only [List.any_append, List.any_cons, Bool.or_eq_true] at hmodel ⊢
    tauto
  have hmain : mergeSave k (pre ++ (chars "MODELSCOPE_API_KEY=" ++ old) :: post)
      = pre ++ (chars "MODELSCOPE_API_KEY=" ++ k) :: post := by
    simp only [mergeSave, hrep, hb2, hm2, if_true]
  exact ⟨hmain, by rw [hmain]; simp⟩

/-- C5 (witness): the amended theorem on a store that already holds both
defaults. -/
theorem C5_witness :
    mergeSave (chars "new")
      ([] ++ (chars "MODELSCOPE_API_KEY=" ++ chars "old") ::
        [chars "PHONE_AGENT_BASE_URL=b", chars "PHONE_AGENT_MODEL=m"])
      = [] ++ (chars "MODELSCOPE_API_KEY=" ++ chars "new") ::
        [chars "PHONE_AGENT_BASE_URL=b", chars "PHONE_AGENT_MODEL=m"] :=
  (C5_amended [] [chars "PHONE_AGENT_BASE_URL=b", chars "PHONE_AGENT_MODEL=m"]
    (chars "old") (chars "new") (by decide) (by decide) (by decide)).1

/-- C6 (counterexample): a stored credential line whose value is `""`
(blank after quote stripping) is skipped by `load_env_file`, so the
previous in-memory value survives — refuting the claim that the entry is
forcibly overwritten even for blank values. -/
theorem C6_cex :
    (loadEnvFile [chars "MODELSCOPE_API_KEY=" ++ [dquote, dquote]]
      (setEnv emptyEnv (chars "MODELSCOPE_API_KEY") (chars "prev")))
      (chars "MODELSCOPE_API_KEY") = some (chars "prev") := by decide

/-- C6 (amended): a load overwrites the in-memory entry of a recognized
`KEY=VALUE` line (with comments ignored and quotes stripped) exactly when
the stripped, unquoted value is non-empty; a value that is blank — or
becomes blank after quote stripping — leaves the previous in-memory
entry intact. -/
theorem C6_amended (env : EnvMap) (v : Str) (hv : trimRightList v = v) :
    (quoteStrip (trimList v) ≠ [] →
      parseEnvLine env (chars "MODELSCOPE_API_KEY=" ++ v)
        = setEnv env (chars "MODELSCOPE_API_KEY") (quoteStrip (trimList v)))
    ∧ (quoteStrip (trimList v) = [] →
      parseEnvLine env (chars "MODELSCOPE_API_KEY=" ++ v) = env) := by
  have h := parseEnvLine_api env v hv
  exact ⟨fun hnz => by rw [h, if_neg hnz], fun hz => by rw [h, if_pos hz]⟩

/-- C6 (witness): overwrite on a non-blank value, skip on a quoted blank. -/
theorem C6_witness :
    parseEnvLine emptyEnv (chars "MODELSCOPE_API_KEY=" ++ chars "abc")
      = setEnv emptyEnv (chars "MODELSCOPE_API_KEY")
          (quoteStrip (trimList (chars "abc")))
    ∧ parseEnvLine emptyEnv (chars "MODELSCOPE_API_KEY=" ++ [dquote, dquote])
      = emptyEnv :=
  ⟨(C6_amended emptyEnv (chars "abc") (by decide)).1 (by decide),
   (C6_amended emptyEnv [dquote, dquote] (by decide)).2 (by decide)⟩

/-- C7: `_configure_path` is idempotent — when the install directory
already occurs in the persistent path (with exactly one occurrence),
invoking it twice leaves the state unchanged and the occurrence count at
one; membership is checked before any append; and a fresh append also
extends the in-process `PATH`. -/
theorem C7_configurePath_idempotent (adbDir : Str) (s : PathState)
    (hin : containsList adbDir (trimList s.userPath) = true)
    (hone : countOcc adbDir s.userPath = 1) :
    (configurePath adbDir true false
      ((configurePath adbDir true false s).state)).state = s
    ∧ countOcc adbDir
        ((configurePath adbDir true false
          ((configurePath adbDir true false s).state)).state).userPath = 1
    ∧ (∀ s2 : PathState,
        containsList adbDir (trimList s2.userPath) = false →
          (configurePath adbDir true false s2).state.envPath
              = s2.envPath ++ chars ";" ++ adbDir
          ∧ (configurePath adbDir true false s2).state.userPath
              = (if trimList s2.userPath = [] then adbDir
                 else trimList s2.userPath ++ chars ";" ++ adbDir)) := by
  have h1 : configurePath adbDir true false s
      = ⟨s, [Effect.readUserPath], true, false⟩ := by
    simp [configurePath, hin]
  refine ⟨by simp [h1], by simp [h1, hone], fun s2 h2 => ?_⟩
  constructor <;> simp [configurePath, h2]

/-- C7 (witness): the theorem at a one-entry persistent path. -/
theorem C7_witness :
    (configurePath (chars "C:pt") true false
      ((configurePath (chars "C:pt") true false
        ⟨chars "C:pt", chars "X"⟩).state)).state
      = ⟨chars "C:pt", chars "X"⟩ :=
  (C7_configurePath_idempotent (chars "C:pt") ⟨chars "C:pt", chars "X"⟩
    (by decide) (by decide)).1

/-- C8: every corrective action invoked while its ACTIONABLE precondition
fails — InstallTool without the bundled archive, InstallHelper without
the package file or without a located tool, ConfigurePath without the
install directory, ConfigureCredential with a blank key — reports an
error and performs zero external effects: no process is spawned and no
file is written. -/
theorem C8_preconditions_no_effects :
    (∀ er ea : Bool, installAdb false er ea = ⟨true, [], false⟩)
    ∧ (∀ (al : Bool) (po : ProcOutcome),
        installAdbKeyboard false al po = ⟨true, [], false⟩)
    ∧ (∀ po : ProcOutcome, installAdbKeyboard true false po = ⟨true, [], false⟩)
    ∧ (∀ (adbDir : Str) (pr : Bool) (s : PathState),
        configurePath adbDir false pr s = ⟨s, [], false, true⟩)
    ∧ (∀ (key : Str) (env : EnvMap) (fe : Bool) (file : List Str) (rr wr : Bool),
        trimList key = [] →
          saveConfig key env fe file rr wr = ⟨env, file, false, true, false⟩) := by
  refine ⟨fun er ea => rfl, fun al po => rfl, fun po => rfl,
    fun adbDir pr s => rfl, fun key env fe file rr wr h => ?_⟩
  simp [saveConfig, h]

/-- C8 (witness): each precondition failure at concrete inputs. -/
theorem C8_witness :
    installAdb false true true = ⟨true, [], false⟩
    ∧ installAdbKeyboard false true ProcOutcome.raised = ⟨true, [], false⟩
    ∧ installAdbKeyboard true false ProcOutcome.raised = ⟨true, [], false⟩
    ∧ configurePath (chars "d") false false ⟨chars "p", chars "e"⟩
        = ⟨⟨chars "p", chars "e"⟩, [], false, true⟩
    ∧ saveConfig [] emptyEnv true [chars "A=1"] false false
        = ⟨emptyEnv, [chars "A=1"], false, true, false⟩ :=
  ⟨C8_preconditions_no_effects.1 true true,
   C8_preconditions_no_effects.2.1 true ProcOutcome.raised,
   C8_preconditions_no_effects.2.2.1 ProcOutcome.raised,
   C8_preconditions_no_effects.2.2.2.1 (chars "d") false ⟨chars "p", chars "e"⟩,
   C8_preconditions_no_effects.2.2.2.2 [] emptyEnv true [chars "A=1"]
     false false rfl⟩

/-- C9 (counterexample): a dispatched run in which
`int(os.environ.get("PHONE_AGENT_MAX_STEPS", "100"))` raises (for
example the stored value `"abc"`) invokes the agent capability zero
times, refuting "invoked exactly once" for every dispatched run. -/
theorem C9_cex :
    (runTask ⟨true, none, true, AgentOutcome.ret []⟩).invocations = 0 := by
  decide

/-- C9 (amended): per dispatched run the agent capability is invoked at
most once — exactly once iff the imports, the max-steps parse and the
agent construction all succeed; on any outcome the run returns to IDLE
with the agent reference dropped and the redirected streams restored,
and an error raised by the agent is caught and logged, never
propagated. -/
theorem C9_amended (inp : RunInput) :
    (runTask inp).running = false
    ∧ (runTask inp).agent = none
    ∧ (runTask inp).streamsRestored = true
    ∧ (runTask inp).propagated = false
    ∧ (runTask inp).invocations ≤ 1
    ∧ ((runTask inp).invocations = 1 ↔
        inp.importOk = true ∧ inp.maxSteps.isSome = true ∧ inp.ctorOk = true)
    ∧ (∀ e : Str, inp.importOk = true → inp.maxSteps.isSome = true →
        inp.ctorOk = true → inp.outcome = AgentOutcome.err e →
        (runTask inp).errorLogged = true) := by
  obtain ⟨io, ms, co, oc⟩ := inp
  cases io <;> cases ms <;> cases co <;> cases oc <;> simp [runTask]

/-- C9 (witness): the amended theorem on a run whose agent call raises. -/
theorem C9_witness :
    (runTask ⟨true, some 100, true,
      AgentOutcome.err (chars "boom")⟩).errorLogged = true
    ∧ (runTask ⟨true, some 100, true,
      AgentOutcome.err (chars "boom")⟩).running = false :=
  ⟨(C9_amended ⟨true, some 100, true, AgentOutcome.err (chars "boom")⟩).2.2.2.2.2.2
      (chars "boom") rfl rfl rfl rfl,
   (C9_amended ⟨true, some 100, true, AgentOutcome.err (chars "boom")⟩).1⟩

/-- C10: in `_configure_api.save` the in-process environment mirror of the
API key is updated only after the store file is written successfully:
whenever reading or writing the store raises, the environment entry
keeps its previous value and an error is reported. -/
theorem C10_env_after_write (apiKey : Str) (env : EnvMap) (fe : Bool)
    (file : List Str) (rr wr : Bool)
    (hkey : trimList apiKey ≠ [])
    (hfail : (fe = true ∧ rr = true) ∨ wr = true) :
    (saveConfig apiKey env fe file rr wr).env = env
    ∧ (saveConfig apiKey env fe file rr wr).errorShown = true := by
  rcases hfail with ⟨hfe, hrr⟩ | hwr
  · constructor <;> simp [saveConfig, hkey, hfe, hrr]
  · constructor <;> (simp only [saveConfig]; rw [if_neg hkey]; split) <;>
      simp [hwr]

/-- C10 (witness): a raising read at concrete inputs. -/
theorem C10_witness :
    (saveConfig (chars "k") emptyEnv true [chars "A=1"] true false).env
      = emptyEnv
    ∧ (saveConfig (chars "k") emptyEnv true [chars "A=1"] true
        false).errorShown = true :=
  C10_env_after_write (chars "k") emptyEnv true [chars "A=1"] true false
    (by decide) (Or.inl ⟨rfl, rfl⟩)
